import Mathlib

/-!
# Verification of the Terramate cloud testserver stack-health endpoints

Shallow embedding of the testserver handlers (`stateTable`, `GetStacks`,
`PutStack`, `GetDeploymentLogs`, `GetDeploymentLogsEvents`,
`PostDeploymentLogs`, `validateStackStatus`) and of the spec's
health-classification and filter model, with theorems checking the spec's
claims against the code.

Conventions of the embedding:
* Go enums for drift / deployment / stack status become Lean inductives over
  exactly the value sets the spec gives.
* The nested Go map `stateTable` becomes a function into `Option`:
  a missing key (`ok == false` on lookup) is `none`.
* An HTTP handler becomes a pure function from its resolved inputs to the
  sequence of response actions it writes; a Go slice index that could panic
  is modelled with `List.getElem?`, with `none` propagated as a distinct
  "panic" outcome of the whole handler.
* `strconv.Atoi` is modelled by an explicit decimal parser `Atoi` over the
  string's characters (parse failure in Go yields an error plus the zero
  value `0`, which the embedding reproduces with `Option.getD 0`).
-/

/-- Drift status enum (`drift.Status`): the spec's set
`DriftStatus ∈ OK, Drifted, Failed, Unknown`. `Unknown` is the zero value. -/
inductive DriftStatus where
  | Unknown
  | OK
  | Drifted
  | Failed
deriving DecidableEq, Repr, Fintype

/-- Deployment status enum (`deployment.Status`): the spec's set
`DeploymentStatus ∈ OK, Failed, Canceled, Pending, Running, Unknown`.
`Unknown` is the zero value. -/
inductive DeploymentStatus where
  | Unknown
  | OK
  | Failed
  | Canceled
  | Pending
  | Running
deriving DecidableEq, Repr, Fintype

/-- Aggregate stack status enum (`stack.Status`): the spec's set
`Status ∈ OK, Failed, Drifted, Unknown`. -/
inductive StackStatus where
  | Unknown
  | OK
  | Drifted
  | Failed
deriving DecidableEq, Repr, Fintype

/-- The health classification table, from `stateTable` in the testserver
source: a nested map drift → deployment → status. A pair absent from the
nested Go map (lookup with `ok == false`) is `none`. -/
def stateTable (d : DriftStatus) (dep : DeploymentStatus) : Option StackStatus :=
  match d, dep with
  | .Unknown, .OK       => some .OK
  | .Unknown, .Failed   => some .Failed
  | .Unknown, .Canceled => some .Failed
  | .OK,      .OK       => some .OK
  | .OK,      .Failed   => some .OK
  | .OK,      .Canceled => some .OK
  | .Drifted, .OK       => some .Drifted
  | .Drifted, .Failed   => some .Failed
  | .Drifted, .Canceled => some .Failed
  | .Failed,  .OK       => some .OK
  | .Failed,  .Pending  => some .OK
  | .Failed,  .Running  => some .OK
  | _,        _         => none

/-- The 12 (drift, deployment) pairs listed in the spec's classification
table (the non-"—" cells of the table in §4.4). -/
def listedPairs : List (DriftStatus × DeploymentStatus) :=
  [ (.Unknown, .OK), (.Unknown, .Failed), (.Unknown, .Canceled),
    (.OK, .OK), (.OK, .Failed), (.OK, .Canceled),
    (.Drifted, .OK), (.Drifted, .Failed), (.Drifted, .Canceled),
    (.Failed, .OK), (.Failed, .Pending), (.Failed, .Running) ]

/-- `cloud.Stack`: the stack identity fields used by the handlers. -/
structure StackMeta where
  metaID : String
  repository : String
deriving DecidableEq, Repr

/-- `cloudstore.StackState`: the per-stack health record state. -/
structure StackState where
  status : StackStatus
  driftStatus : DriftStatus
  deploymentStatus : DeploymentStatus
  createdAt : Nat
  updatedAt : Nat
  seenAt : Nat
deriving DecidableEq, Repr

/-- `cloudstore.Stack`: a stored stack (identity plus health state). -/
structure StoreStack where
  stack : StackMeta
  state : StackState
deriving DecidableEq, Repr

/-- `validateStackStatus` from the testserver source: the stored
(drift, deployment) pair must be a key of `stateTable`. -/
def validateStackStatus (s : StoreStack) : Bool :=
  (stateTable s.state.driftStatus s.state.deploymentStatus).isSome

/-- `invalidStackStateError` from the testserver source (message text
abbreviated to the fixed prefix; the formatting verbs carry the states). -/
def invalidStackStateError (_st : StoreStack) : String :=
  "stack has invalid state"

/- ## Claim theorems: the classification table (C1, C2) -/

/-- C1: every (drift, deployment) pair listed in the spec's classification
table is mapped by the code's `stateTable` to exactly the status the table
gives; in particular (Drifted, Failed) ↦ Failed and (OK, Canceled) ↦ OK.
(The embedding is a Lean function of the two inputs alone, so classification
is a pure function of (drift, deployment).) -/
theorem stateTable_matches_spec_table :
    stateTable .Drifted .Failed = some .Failed ∧
    stateTable .OK .Canceled = some .OK ∧
    stateTable .Unknown .OK = some .OK ∧
    stateTable .Unknown .Failed = some .Failed ∧
    stateTable .Unknown .Canceled = some .Failed ∧
    stateTable .OK .OK = some .OK ∧
    stateTable .OK .Failed = some .OK ∧
    stateTable .Drifted .OK = some .Drifted ∧
    stateTable .Drifted .Canceled = some .Failed ∧
    stateTable .Failed .OK = some .OK ∧
    stateTable .Failed .Pending = some .OK ∧
    stateTable .Failed .Running = some .OK := by
  decide

/-- C2: every (drift, deployment) pair absent from the classification table
fails classification (`stateTable` yields `none`, which `GetStacks` reports
as `InvalidStateError`); no absent pair is mapped to a default status. -/
theorem stateTable_absent_pairs_none (d : DriftStatus) (dep : DeploymentStatus)
    (h : (d, dep) ∉ listedPairs) : stateTable d dep = none := by
  revert h
  cases d <;> cases dep <;> decide

/-- Witness for C2 at the concrete absent pair (Unknown, Pending). -/
theorem stateTable_absent_pairs_none_witness :
    (DriftStatus.Unknown, DeploymentStatus.Pending) ∉ listedPairs ∧
    stateTable .Unknown .Pending = none :=
  ⟨by decide, stateTable_absent_pairs_none .Unknown .Pending (by decide)⟩

/- ## The status filter language and the GetStacks handler (C3, C4, C5) -/

/-- Modelled from the spec: `stack.FilterStatus` (the `stack` package is not
among these sources). "a status filter is a bitmask over OK, Failed,
Drifted"; each status gets its own bit, `Unknown` a bit of its own. -/
def FilterStatus (s : StackStatus) : Nat :=
  match s with
  | .OK => 1
  | .Failed => 2
  | .Drifted => 4
  | .Unknown => 8

/-- `stack.NoFilter`: the empty bitmask, matching the Go zero filter. -/
def NoFilter : Nat := 0

/-- Modelled from the spec: the `Unrecognized` sentinel value of the filter
language ("An unrecognized filter token is an `Unrecognized` sentinel"). -/
def Unrecognized : Nat := 16

/-- Modelled from the spec: `stack.NewStatusFilter` (the `stack` package is
not among these sources). The recognized tokens are the statuses of the
bitmask plus the convenience terms "healthy" = OK and
"unhealthy" = Failed ∪ Drifted; anything else is the `Unrecognized`
sentinel. -/
def NewStatusFilter (s : String) : Nat :=
  if s = "ok" then FilterStatus .OK
  else if s = "failed" then FilterStatus .Failed
  else if s = "drifted" then FilterStatus .Drifted
  else if s = "healthy" then FilterStatus .OK
  else if s = "unhealthy" then FilterStatus .Failed ||| FilterStatus .Drifted
  else Unrecognized

/-- The status predicate `GetStacks` installs when a filter is present:
`stack.FilterStatus(st.State.Status) & filterStatus != 0`. -/
def statusMatches (filterStatus : Nat) (st : StoreStack) : Bool :=
  FilterStatus st.state.status &&& filterStatus != 0

/-- One element of the `GetStacks` JSON response (`cloud.StackResponse`). -/
structure StackResponse where
  id : Nat
  stack : StackMeta
  status : StackStatus
  deploymentStatus : DeploymentStatus
  driftStatus : DriftStatus
  createdAt : Nat
  updatedAt : Nat
  seenAt : Nat
deriving DecidableEq, Repr

/-- Outcome of the `GetStacks` handler: either an HTTP error status with a
message, or the JSON list of matching stacks. -/
inductive GetStacksResult where
  | httpError (code : Nat) (msg : String)
  | ok (stackList : List StackResponse)
deriving DecidableEq, Repr

/-- The response element `GetStacks` builds for stack `st` at index `id`. -/
def mkStackResponse (id : Nat) (st : StoreStack) : StackResponse :=
  { id := id
    stack := st.stack
    status := st.state.status
    deploymentStatus := st.state.deploymentStatus
    driftStatus := st.state.driftStatus
    createdAt := st.state.createdAt
    updatedAt := st.state.updatedAt
    seenAt := st.state.seenAt }

/-- The stack loop of `GetStacks`: walk the org's stacks in index order;
the first stack whose stored state fails `validateStackStatus` aborts the
whole handler with a 500 error (nothing of the response had been written
yet, since the JSON is marshalled only after the loop); otherwise collect
the stacks passing the filter. Index order already matches the final
sort-by-ID. -/
def processStacks (filter : StoreStack → Bool) :
    Nat → List StoreStack → Except String (List StackResponse)
  | _, [] => .ok []
  | id, st :: rest =>
    if validateStackStatus st then
      match processStacks filter (id + 1) rest with
      | .error e => .error e
      | .ok l => .ok (if filter st then mkStackResponse id st :: l else l)
    else
      .error (invalidStackStateError st)

/-- The conjunction of the `andFilters` closures `GetStacks` builds from the
three query parameters (status, repository, meta_id). -/
def getStacksFilter (filterStatus : Nat) (repo metaID : String)
    (st : StoreStack) : Bool :=
  (filterStatus == NoFilter || statusMatches filterStatus st) &&
  (repo == "" || st.stack.repository == repo) &&
  (metaID == "" || st.stack.metaID == metaID)

/-- The `GetStacks` handler (GET /stacks), on a resolved store: `none` for
the org means the org lookup failed. Control flow follows the source: org
lookup, then filter-token validation, then the stack loop. -/
def GetStacks (org : Option (List StoreStack))
    (filterStatusStr repo metaID : String) : GetStacksResult :=
  match org with
  | none => .httpError 404 "organization not found"
  | some sts =>
    let filterStatus := if filterStatusStr = "" then NoFilter
                        else NewStatusFilter filterStatusStr
    if filterStatusStr ≠ "" ∧ filterStatus = Unrecognized then
      .httpError 400 ("invalid status: " ++ filterStatusStr)
    else
      match processStacks (getStacksFilter filterStatus repo metaID) 0 sts with
      | .error e => .httpError 500 e
      | .ok l => .ok l

/-- Any status the classification table produces is OK, Failed or Drifted —
never Unknown. -/
theorem stateTable_status_ne_unknown (d : DriftStatus) (dep : DeploymentStatus)
    (s : StackStatus) (h : stateTable d dep = some s) : s ≠ .Unknown := by
  revert s
  cases d <;> cases dep <;> decide

/-- C3: on a validly-classified stack (its stored status is the table's
value for its stored (drift, deployment) pair), the "unhealthy" filter
matches exactly status Failed or Drifted, the "healthy" filter matches
exactly status OK, the two never match together, and one of the two always
matches. -/
theorem unhealthy_healthy_partition (st : StoreStack)
    (h : stateTable st.state.driftStatus st.state.deploymentStatus
          = some st.state.status) :
    (statusMatches (NewStatusFilter "unhealthy") st = true ↔
      st.state.status = .Failed ∨ st.state.status = .Drifted) ∧
    (statusMatches (NewStatusFilter "healthy") st = true ↔
      st.state.status = .OK) ∧
    ¬(statusMatches (NewStatusFilter "unhealthy") st = true ∧
      statusMatches (NewStatusFilter "healthy") st = true) ∧
    (statusMatches (NewStatusFilter "unhealthy") st = true ∨
      statusMatches (NewStatusFilter "healthy") st = true) := by
  have hs := stateTable_status_ne_unknown _ _ _ h
  simp only [statusMatches, NewStatusFilter]
  cases he : st.state.status <;> simp_all <;> decide

/-- A concrete validly-classified stack with status OK. -/
def okStoreStack : StoreStack :=
  { stack := { metaID := "s1", repository := "github.com/terramate-io/terramate" }
    state := { status := .OK, driftStatus := .OK, deploymentStatus := .OK
               createdAt := 0, updatedAt := 0, seenAt := 0 } }

/-- Witness for C3 at the concrete stack `okStoreStack`. -/
theorem unhealthy_healthy_partition_witness :
    (statusMatches (NewStatusFilter "unhealthy") okStoreStack = true ↔
      okStoreStack.state.status = .Failed ∨ okStoreStack.state.status = .Drifted) ∧
    (statusMatches (NewStatusFilter "healthy") okStoreStack = true ↔
      okStoreStack.state.status = .OK) ∧
    ¬(statusMatches (NewStatusFilter "unhealthy") okStoreStack = true ∧
      statusMatches (NewStatusFilter "healthy") okStoreStack = true) ∧
    (statusMatches (NewStatusFilter "unhealthy") okStoreStack = true ∨
      statusMatches (NewStatusFilter "healthy") okStoreStack = true) :=
  unhealthy_healthy_partition okStoreStack (by decide)

/- ## C4: an invalid stored state aborts the whole listing -/

/-- A concrete stack whose stored (drift, deployment) pair
(Failed, Failed) is absent from the classification table. -/
def invalidStateStack : StoreStack :=
  { stack := { metaID := "bad", repository := "github.com/terramate-io/terramate" }
    state := { status := .OK, driftStatus := .Failed, deploymentStatus := .Failed
               createdAt := 0, updatedAt := 0, seenAt := 0 } }

/-- Counterexample to C4 as stated: a store holding one stack with an
invalid (drift, deployment) combination and one unrelated valid stack; the
listing aborts with HTTP 500 and returns no stacks at all — it does not
return results for the unrelated valid stack. -/
theorem getStacks_invalid_state_aborts_cex :
    GetStacks (some [invalidStateStack, okStoreStack]) "" "" "" =
      .httpError 500 "stack has invalid state" := by
  decide

/-- If any stack of the list fails `validateStackStatus`, the stack loop of
`GetStacks` yields an error, whatever the filter and start index. -/
theorem processStacks_error_of_invalid (f : StoreStack → Bool)
    (sts : List StoreStack) :
    ∀ (i : Nat), (∃ st ∈ sts, validateStackStatus st = false) →
      ∃ e, processStacks f i sts = .error e := by
  induction sts with
  | nil =>
    intro i h
    rcases h with ⟨st, hmem, _⟩
    cases hmem
  | cons st rest ih =>
    intro i h
    by_cases hv : validateStackStatus st
    · rcases h with ⟨st', hmem, hval⟩
      rcases List.mem_cons.mp hmem with rfl | hmem'
      · rw [hv] at hval; cases hval
      · rcases ih (i + 1) ⟨st', hmem', hval⟩ with ⟨e, he⟩
        exact ⟨e, by simp [processStacks, hv, he]⟩
    · exact ⟨invalidStackStateError st, by simp [processStacks, hv]⟩

/-- C4 amended: an `InvalidStateError` for one stack's stored health
combination aborts the whole listing: for every store containing a stack
with an invalid (drift, deployment) combination, the unfiltered listing
returns an HTTP 500 error (and hence no stacks, not even the valid
ones). -/
theorem getStacks_invalid_state_aborts_listing (sts : List StoreStack)
    (h : ∃ st ∈ sts, validateStackStatus st = false) :
    ∃ msg, GetStacks (some sts) "" "" "" = .httpError 500 msg := by
  rcases processStacks_error_of_invalid (getStacksFilter NoFilter "" "") sts 0 h
    with ⟨e, he⟩
  exact ⟨e, by simp [GetStacks, he]⟩

/-- Witness for the amended C4 at a concrete one-stack store. -/
theorem getStacks_invalid_state_aborts_listing_witness :
    ∃ msg, GetStacks (some [invalidStateStack]) "" "" "" = .httpError 500 msg :=
  getStacks_invalid_state_aborts_listing [invalidStateStack]
    ⟨invalidStateStack, by decide, by decide⟩

/- ## C5: an unrecognized status filter token is rejected with 400 -/

/-- C5: a listing whose non-empty status filter string is none of the
recognized tokens is rejected with HTTP 400 and a descriptive message, and
returns no stacks (the result is an error, never an empty match). -/
theorem getStacks_unrecognized_filter_rejected (sts : List StoreStack)
    (fs repo metaID : String) (h1 : fs ≠ "")
    (h2 : fs ∉ ["ok", "failed", "drifted", "healthy", "unhealthy"]) :
    GetStacks (some sts) fs repo metaID =
      .httpError 400 ("invalid status: " ++ fs) := by
  simp only [List.mem_cons, List.not_mem_nil, not_or, or_false] at h2
  obtain ⟨n1, n2, n3, n4, n5⟩ := h2
  simp [GetStacks, NewStatusFilter, h1, n1, n2, n3, n4, n5, Unrecognized]

/-- Witness for C5 at the concrete unrecognized token "bogus". -/
theorem getStacks_unrecognized_filter_rejected_witness :
    GetStacks (some [okStoreStack]) "bogus" "" "" =
      .httpError 400 ("invalid status: " ++ "bogus") :=
  getStacks_unrecognized_filter_rejected [okStoreStack] "bogus" "" ""
    (by decide) (by decide)

/- ## C6: PutStack and the stored-record validity constraint -/

/-- Modelled from the spec: the durable store's upsert ("Upsert: given an
organization identity and a Stack Health Record, persists or updates it;
absence of a matching prior record creates one"); the `cloudstore` package
is not among these sources. Records are matched by the stack's meta ID. -/
def UpsertStack (sts : List StoreStack) (st : StoreStack) : List StoreStack :=
  if sts.any (fun s => s.stack.metaID == st.stack.metaID) then
    sts.map (fun s => if s.stack.metaID == st.stack.metaID then st else s)
  else
    sts ++ [st]

/-- The `PutStack` handler (PUT /stacks) on an already-parsed request body
(`cloud.StackResponse`). Following the source, the stored `StackState`
names only `Status` and the three timestamps; `DriftStatus` and
`DeploymentStatus` are left at the Go zero value (modelled `Unknown`).
Returns the HTTP status (204 on success) and the updated stack list. -/
def PutStack (sts : List StoreStack) (st : StackResponse) :
    Nat × List StoreStack :=
  (204, UpsertStack sts
    { stack := st.stack
      state := { status := st.status
                 driftStatus := DriftStatus.Unknown
                 deploymentStatus := DeploymentStatus.Unknown
                 createdAt := st.createdAt
                 updatedAt := st.updatedAt
                 seenAt := st.seenAt } })

/-- The spec's validity constraint on a stored Stack Health Record: the
(drift, deployment) pair is in the classification table and `Status` is the
table's value for it. -/
def validHealthRecord (s : StoreStack) : Bool :=
  stateTable s.state.driftStatus s.state.deploymentStatus == some s.state.status

/-- A concrete PUT /stacks request carrying `Status = Failed` (and drift/
deployment fields the handler ignores). -/
def putFailedRequest : StackResponse :=
  { id := 0
    stack := { metaID := "s1", repository := "github.com/terramate-io/terramate" }
    status := .Failed
    deploymentStatus := .OK
    driftStatus := .OK
    createdAt := 0, updatedAt := 0, seenAt := 0 }

/-- Counterexample to C6 as stated: this PutStack succeeds (204) yet the
record it persists violates the Health Classifier's validity constraint. -/
theorem putStack_persists_invalid_record_cex :
    (PutStack [] putFailedRequest).1 = 204 ∧
    (PutStack [] putFailedRequest).2.all validHealthRecord = false := by
  decide

/-- C6 amended: every PutStack succeeds with 204 and stores the request's
`Status` verbatim while resetting `DriftStatus` and `DeploymentStatus` to
the zero value `Unknown`; since (Unknown, Unknown) is absent from the
classification table, the record it upserts into an empty store never
satisfies the validity constraint — `Status` is stored independently of
the mapping, and the violation only surfaces later as the 500
data-integrity error of the listing path. -/
theorem putStack_stores_status_verbatim (st : StackResponse) :
    (PutStack [] st).1 = 204 ∧
    (PutStack [] st).2 =
      [{ stack := st.stack
         state := { status := st.status
                    driftStatus := DriftStatus.Unknown
                    deploymentStatus := DeploymentStatus.Unknown
                    createdAt := st.createdAt
                    updatedAt := st.updatedAt
                    seenAt := st.seenAt } }] ∧
    (PutStack [] st).2.all validHealthRecord = false := by
  refine ⟨rfl, rfl, ?_⟩
  simp [PutStack, UpsertStack, validHealthRecord, stateTable]

/- ## C7: the live-tail loop is never silent across an iteration -/

/-- One deployment log line (`cloud.DeploymentLogLine`): line number,
channel, timestamp, message. -/
structure DeploymentLogLine where
  line : Nat
  channel : String
  timestamp : String
  message : String
deriving DecidableEq, Repr

/-- An event written to the SSE consumer by the tail loop: a formatted log
line, or the "no new lines yet" heartbeat (the `.` line). -/
inductive LogEvent where
  | logLine (l : DeploymentLogLine)
  | heartbeat
deriving DecidableEq, Repr

/-- Modelled from the spec: `store.GetDeploymentLogs` with a starting line
number ("a live tail starting at a given line number"); the `cloudstore`
package is not among these sources. Returns the stored log lines from that
line number on. -/
def fetchDeploymentLogs (all : List DeploymentLogLine) (fromLine : Nat) :
    List DeploymentLogLine :=
  all.filter (fun l => fromLine ≤ l.line)

/-- The emissions of one iteration of the tail loop of
`GetDeploymentLogsEvents`: write every fetched log line in order, then the
heartbeat exactly when the poll returned no lines. -/
def tailIteration (logs : List DeploymentLogLine) : List LogEvent :=
  logs.map LogEvent.logLine ++
    (if logs.length = 0 then [LogEvent.heartbeat] else [])

/-- One full polling step of the tail loop: fetch from the current line
counter, emit, and advance the counter by one per emitted log line. -/
def tailStep (all : List DeploymentLogLine) (line : Nat) :
    List LogEvent × Nat :=
  let logs := fetchDeploymentLogs all line
  (tailIteration logs, line + logs.length)

/-- C7: every polling step of the live-tail loop emits at least one event;
it emits either exactly the heartbeat or exactly the fetched log lines in
order, and the heartbeat is emitted precisely when the poll returned no new
lines — the stream is never silent across an iteration. -/
theorem tail_loop_never_silent (all : List DeploymentLogLine) (line : Nat) :
    (tailStep all line).1 ≠ [] ∧
    ((tailStep all line).1 = [LogEvent.heartbeat] ∨
     (tailStep all line).1 =
       (fetchDeploymentLogs all line).map LogEvent.logLine) ∧
    ((tailStep all line).1 = [LogEvent.heartbeat] ↔
      fetchDeploymentLogs all line = []) := by
  simp only [tailStep, tailIteration]
  rcases h : fetchDeploymentLogs all line with _ | ⟨a, rest⟩ <;> simp [h]

/- ## The deployment-logs handlers (C9, C10) -/

/-- Decimal digit-string value, `none` when empty or containing a
non-digit. -/
def digitsToNat (l : List Char) : Option Nat :=
  if l = [] then none
  else l.foldl
    (fun acc? c => acc?.bind
      (fun acc => if c.isDigit then some (acc * 10 + (c.toNat - 48)) else none))
    (some 0)

/-- Model of Go's `strconv.Atoi`: an optional sign followed by at least one
decimal digit; anything else is a parse error. -/
def Atoi (s : String) : Option Int :=
  match s.toList with
  | '-' :: rest => (digitsToNat rest).map (fun n => -(n : Int))
  | '+' :: rest => (digitsToNat rest).map (fun n => (n : Int))
  | l => (digitsToNat l).map (fun n => (n : Int))

/-- A write the handler performs on the HTTP response: a status code, an
error body, a JSON log body, or the SSE event stream. -/
inductive RespAction where
  | status (code : Nat)
  | errBody (msg : String)
  | body (logs : List DeploymentLogLine)
  | sse (events : List LogEvent)
deriving DecidableEq, Repr

/-- The stack lookup shared by the three deployment-logs handlers: the
bounds check `stackid < 0 || stackid >= len(stacks)` (answering 404
"stack not found") followed by the slice index `stacks[stackid]`. The
outer `none` models the Go slice-index panic; the guard makes it
unreachable. -/
def lookupStack (sts : List StoreStack) (stackid : Int) :
    Option (Except (List RespAction) StoreStack) :=
  if stackid < 0 ∨ (sts.length : Int) ≤ stackid then
    some (.error [.status 404, .errBody "stack not found"])
  else
    match sts[stackid.toNat]? with
    | none => none
    | some st => some (.ok st)

/-- The writes `strconv.Atoi` failure produces in the GET and SSE handlers
(which write the 400 and the error body but are missing the `return`, so
the handler keeps running with the zero value 0 for the stack id). -/
def atoiErrActions (parsed : Option Int) : List RespAction :=
  match parsed with
  | none => [.status 400, .errBody "invalid syntax"]
  | some _ => []

/-- The `GetDeploymentLogs` handler (GET point-in-time logs fetch) on a
resolved store: `org = none` models a failed org lookup; `getLogs` gives
each stack's stored deployment log lines by meta ID (the store read is
external to these sources). Result `none` models a slice-index panic.
Faithful to the source, an unparsable stack id writes 400 but does not
return; the handler continues with stack id 0. -/
def GetDeploymentLogs (org : Option (List StoreStack))
    (getLogs : String → List DeploymentLogLine) (stackIDStr : String) :
    Option (List RespAction) :=
  if stackIDStr = "" then some [.status 400]
  else
    match org with
    | none =>
      some (atoiErrActions (Atoi stackIDStr) ++
        [.status 404, .errBody "organization not found"])
    | some sts =>
      match lookupStack sts ((Atoi stackIDStr).getD 0) with
      | none => none
      | some (.error acts) => some (atoiErrActions (Atoi stackIDStr) ++ acts)
      | some (.ok st) =>
        some (atoiErrActions (Atoi stackIDStr) ++
          [.body (getLogs st.stack.metaID)])

/-- The `GetDeploymentLogsEvents` handler (SSE live tail): org lookup
first, then the stack id. The unbounded loop is represented by the
emissions of its first polling step (started at line counter 0). As in the
GET handler, an unparsable stack id writes 400 without returning. -/
def GetDeploymentLogsEvents (org : Option (List StoreStack))
    (getLogs : String → List DeploymentLogLine) (stackIDStr : String) :
    Option (List RespAction) :=
  match org with
  | none => some [.status 404, .errBody "organization not found"]
  | some sts =>
    if stackIDStr = "" then some [.status 400]
    else
      match lookupStack sts ((Atoi stackIDStr).getD 0) with
      | none => none
      | some (.error acts) => some (atoiErrActions (Atoi stackIDStr) ++ acts)
      | some (.ok st) =>
        some (atoiErrActions (Atoi stackIDStr) ++
          [.sse (tailStep (getLogs st.stack.metaID) 0).1])

/-- The `PostDeploymentLogs` handler (log append) on an already-read body
(`none` models a JSON unmarshal failure). Unlike the two GET handlers, its
`strconv.Atoi` failure branch does return, so nothing follows the 400.
The store append itself always succeeds here (its effect is outside the
claims); the handler answers 204. -/
def PostDeploymentLogs (org : Option (List StoreStack)) (stackIDStr : String)
    (body : Option (List DeploymentLogLine)) : Option (List RespAction) :=
  if stackIDStr = "" then some [.status 400]
  else
    match (Atoi stackIDStr) with
    | none => some [.status 400, .errBody "invalid syntax"]
    | some stackid =>
      match org with
      | none => some [.status 404, .errBody "organization not found"]
      | some sts =>
        match lookupStack sts stackid with
        | none => none
        | some (.error acts) => some acts
        | some (.ok _st) =>
          match body with
          | none => some [.status 400]
          | some _logs => some [.status 204]

/-- An out-of-range stack id makes the shared lookup answer 404
"stack not found". -/
theorem lookupStack_out_of_bounds (sts : List StoreStack) (stackid : Int)
    (h : stackid < 0 ∨ (sts.length : Int) ≤ stackid) :
    lookupStack sts stackid =
      some (.error [.status 404, .errBody "stack not found"]) := by
  simp [lookupStack, h]

/-- The shared lookup never panics: the bounds guard protects the slice
index, so the `none` branch is unreachable. -/
theorem lookupStack_ne_none (sts : List StoreStack) (stackid : Int) :
    lookupStack sts stackid ≠ none := by
  by_cases h : stackid < 0 ∨ (sts.length : Int) ≤ stackid
  · simp [lookupStack, h]
  · push_neg at h
    obtain ⟨h0, hlen⟩ := h
    have hlt : stackid.toNat < sts.length := by omega
    have hc : ¬(stackid < 0 ∨ (sts.length : Int) ≤ stackid) := by omega
    simp [lookupStack, hc, List.getElem?_eq_getElem hlt]

/-- The point-in-time fetch handler never indexes the stack slice out of
bounds. -/
theorem getDeploymentLogs_ne_none (org : Option (List StoreStack))
    (getLogs : String → List DeploymentLogLine) (s : String) :
    GetDeploymentLogs org getLogs s ≠ none := by
  unfold GetDeploymentLogs
  by_cases he : s = ""
  · simp [he]
  · simp only [he, if_false]
    cases org with
    | none => simp
    | some sts =>
      cases hl : lookupStack sts ((Atoi s).getD 0) with
      | none => exact absurd hl (lookupStack_ne_none _ _)
      | some r => cases r <;> simp [hl]

/-- The SSE live-tail handler never indexes the stack slice out of
bounds. -/
theorem getDeploymentLogsEvents_ne_none (org : Option (List StoreStack))
    (getLogs : String → List DeploymentLogLine) (s : String) :
    GetDeploymentLogsEvents org getLogs s ≠ none := by
  unfold GetDeploymentLogsEvents
  cases org with
  | none => simp
  | some sts =>
    by_cases he : s = ""
    · simp [he]
    · simp only [he, if_false]
      cases hl : lookupStack sts ((Atoi s).getD 0) with
      | none => exact absurd hl (lookupStack_ne_none _ _)
      | some r => cases r <;> simp [hl]

/-- The log-append handler never indexes the stack slice out of bounds. -/
theorem postDeploymentLogs_ne_none (org : Option (List StoreStack))
    (s : String) (body : Option (List DeploymentLogLine)) :
    PostDeploymentLogs org s body ≠ none := by
  unfold PostDeploymentLogs
  by_cases he : s = ""
  · simp [he]
  · simp only [he, if_false]
    cases hA : Atoi s with
    | none => simp [hA]
    | some stackid =>
      cases org with
      | none => simp [hA]
      | some sts =>
        cases hl : lookupStack sts stackid with
        | none => exact absurd hl (lookupStack_ne_none _ _)
        | some r =>
          cases r with
          | error acts => simp [hA, hl]
          | ok st => cases body <;> simp [hA, hl]

/-- C9: a deployment-logs request (fetch, live tail, or append) whose
integer stack id is negative or at least the number of the organization's
stacks is answered 404 "stack not found" by all three handlers; and no
input whatsoever makes any of the three handlers index the stack
collection out of bounds (no handler result is the panic value `none`). -/
theorem logsHandlers_stackid_bounds (sts : List StoreStack)
    (getLogs : String → List DeploymentLogLine)
    (body : Option (List DeploymentLogLine)) (s : String) (id : Int)
    (hparse : Atoi s = some id)
    (hout : id < 0 ∨ (sts.length : Int) ≤ id) :
    GetDeploymentLogs (some sts) getLogs s =
      some [.status 404, .errBody "stack not found"] ∧
    GetDeploymentLogsEvents (some sts) getLogs s =
      some [.status 404, .errBody "stack not found"] ∧
    PostDeploymentLogs (some sts) s body =
      some [.status 404, .errBody "stack not found"] ∧
    (∀ (org2 : Option (List StoreStack)) (s2 : String)
       (getLogs2 : String → List DeploymentLogLine)
       (body2 : Option (List DeploymentLogLine)),
       GetDeploymentLogs org2 getLogs2 s2 ≠ none ∧
       GetDeploymentLogsEvents org2 getLogs2 s2 ≠ none ∧
       PostDeploymentLogs org2 s2 body2 ≠ none) := by
  have hne : s ≠ "" := by
    intro he
    rw [he] at hparse
    exact Option.noConfusion ((by decide : Atoi "" = none) ▸ hparse)
  refine ⟨?_, ?_, ?_, ?_⟩
  · simp [GetDeploymentLogs, hne, hparse, atoiErrActions,
      lookupStack_out_of_bounds sts id hout]
  · simp [GetDeploymentLogsEvents, hne, hparse, atoiErrActions,
      lookupStack_out_of_bounds sts id hout]
  · simp [PostDeploymentLogs, hne, hparse,
      lookupStack_out_of_bounds sts id hout]
  · intro org2 s2 getLogs2 body2
    exact ⟨getDeploymentLogs_ne_none org2 getLogs2 s2,
      getDeploymentLogsEvents_ne_none org2 getLogs2 s2,
      postDeploymentLogs_ne_none org2 s2 body2⟩

/-- Witness for C9: stack id 5 against a one-stack organization is
answered 404 by all three handlers. -/
theorem logsHandlers_stackid_bounds_witness :
    GetDeploymentLogs (some [okStoreStack]) (fun _ => []) "5" =
      some [.status 404, .errBody "stack not found"] ∧
    GetDeploymentLogsEvents (some [okStoreStack]) (fun _ => []) "5" =
      some [.status 404, .errBody "stack not found"] ∧
    PostDeploymentLogs (some [okStoreStack]) "5" none =
      some [.status 404, .errBody "stack not found"] := by
  have h := logsHandlers_stackid_bounds [okStoreStack] (fun _ => []) none
    "5" 5 (by decide) (by decide)
  exact ⟨h.1, h.2.1, h.2.2.1⟩

/- ## C10: an unparsable stack id does not stop the GET/SSE handlers -/

/-- A concrete stored deployment log line. -/
def sampleLogLine : DeploymentLogLine :=
  { line := 0, channel := "stdout"
    timestamp := "2024-01-01T00:00:00Z", message := "hello" }

/-- C10 evaluated at the failing input: stack id string "abc" against a
one-stack organization. `GetDeploymentLogs` and `GetDeploymentLogsEvents`
write the 400 error but keep processing (the `strconv.Atoi` error branch
lacks a `return`, so the handler proceeds with stack id 0) and write stack
0's log data after the error status; only `PostDeploymentLogs` stops after
the 400. -/
theorem parse_error_processing_continues :
    GetDeploymentLogs (some [okStoreStack]) (fun _ => [sampleLogLine]) "abc" =
      some [.status 400, .errBody "invalid syntax", .body [sampleLogLine]] ∧
    GetDeploymentLogsEvents (some [okStoreStack]) (fun _ => [sampleLogLine])
        "abc" =
      some [.status 400, .errBody "invalid syntax",
        .sse [LogEvent.logLine sampleLogLine]] ∧
    PostDeploymentLogs (some [okStoreStack]) "abc" (some [sampleLogLine]) =
      some [.status 400, .errBody "invalid syntax"] := by
  decide

/- ## C8: a status filter against a purely local repository is rejected -/

/-- Outcome of one run of the CLI listing command: process exit status, the
stack names printed to stdout, and the error message printed to stderr. -/
structure CliListResult where
  exitStatus : Nat
  printedStacks : List String
  errMsg : String
deriving DecidableEq, Repr

/-- Modelled from the spec: the CLI listing command with a remote-status
filter (the command implementation is not among these sources; only its
end-to-end test is). "Listing/filtering by remote status must be rejected
outright when the repository's remote identity cannot be resolved (e.g., a
purely local, non-hosted repository) — this is a hard precondition failure,
not an empty result"; the error text is the one the test expects. With a
resolvable remote the command queries the store (`GetStacks`) and prints
the local stacks whose remote record matches the filter. -/
def cliList (remoteResolvable : Bool) (statusFilter : String)
    (localStackIDs : List String) (remote : List StoreStack) :
    CliListResult :=
  if statusFilter = "" then
    { exitStatus := 0, printedStacks := localStackIDs, errMsg := "" }
  else if remoteResolvable then
    match GetStacks (some remote) statusFilter "" "" with
    | .httpError _code msg =>
      { exitStatus := 1, printedStacks := [], errMsg := msg }
    | .ok matched =>
      { exitStatus := 0
        printedStacks := localStackIDs.filter
          (fun sid => matched.any (fun m => m.stack.metaID == sid))
        errMsg := "" }
  else
    { exitStatus := 1, printedStacks := []
      errMsg := statusFilter ++
        " status filter does not work with filesystem based remotes" }

/-- C8: every listing with a non-empty status filter against a repository
whose remote identity cannot be resolved exits non-zero, lists zero stacks
and prints the descriptive error — it is never an empty success. -/
theorem cliList_local_repo_filter_rejected (statusFilter : String)
    (localStackIDs : List String) (remote : List StoreStack)
    (h : statusFilter ≠ "") :
    cliList false statusFilter localStackIDs remote =
      { exitStatus := 1, printedStacks := []
        errMsg := statusFilter ++
          " status filter does not work with filesystem based remotes" } := by
  simp [cliList, h]

/-- Witness for C8 at the filter "unhealthy" and one local stack. -/
theorem cliList_local_repo_filter_rejected_witness :
    cliList false "unhealthy" ["s1"] [] =
      { exitStatus := 1, printedStacks := []
        errMsg := "unhealthy" ++
          " status filter does not work with filesystem based remotes" } :=
  cliList_local_repo_filter_rejected "unhealthy" ["s1"] [] (by decide)
